import Mathlib

/-!
# Verification of the duplicate-event detector

Shallow embedding of the `DuplicateEventDetector` utility of the
campus event-management application (class `DuplicateEventDetector` in
`utils/duplicateDetection.js`, consumed by the event routes
`POST /api/events` and `POST /api/events/check-duplicates`).

Modelling conventions:
* JavaScript numbers are modelled exactly: the rational-valued parts of the
  pipeline (text similarity, Jaccard similarity, date proximity, the weights)
  live in `ℚ`; the geographic branch uses real trigonometry, so the venue
  proximity and the combined probability live in `ℝ`.
* JavaScript strings are Lean `String`s; the string helpers
  (`toLowerCase`, `trim`, `replace(/[^\w\s]/g,'')`, `split(/\s+/)`) are
  re-implemented as structurally recursive functions over `List Char` so that
  concrete evaluations reduce.
* `Math.atan2 y x` is modelled as `Complex.arg ⟨x, y⟩`, which agrees with
  `atan2` on the reals (range `(-π, π]`, `atan2 0 0 = 0`).
* Thrown exceptions are modelled with `Except`; a `throw` is `.error`.
-/

/-- JS `\w` character class: letters, digits and underscore (ASCII). -/
def isWordChar (c : Char) : Bool :=
  c.isAlphanum || c = '_'

/-- JS `\s`-like whitespace test (ASCII whitespace). -/
def isSpaceChar (c : Char) : Bool :=
  c.isWhitespace

/-- Models `String.prototype.trim`: drop leading and trailing whitespace. -/
def trimChars (cs : List Char) : List Char :=
  ((cs.dropWhile isSpaceChar).reverse.dropWhile isSpaceChar).reverse

/-- Models `text.toLowerCase().trim().replace(/[^\w\s]/g, '')` from
`calculateTextSimilarity`: lowercase, trim, then strip every character that is
neither a word character nor whitespace.  The result is kept as a `List Char`. -/
def normalizeText (s : String) : List Char :=
  (trimChars (s.data.map Char.toLower)).filter fun c => isWordChar c || isSpaceChar c

/-- Models `levenshteinDistance(str1, str2)`: the source fills the full dynamic
programming matrix with `matrix[i][j] = matrix[i-1][j-1]` when the characters
agree and `1 + min(diagonal, left, up)` otherwise, with first row and column
`0..len`.  This is exactly the textbook Levenshtein recurrence, embedded here
as a recursion on the two suffixes. -/
def levenshteinDistance : List Char → List Char → Nat
  | [], ys => ys.length
  | x :: xs, [] => (x :: xs).length
  | x :: xs, y :: ys =>
    if x = y then
      levenshteinDistance xs ys
    else
      1 + min (levenshteinDistance xs ys)
        (min (levenshteinDistance xs (y :: ys)) (levenshteinDistance (x :: xs) ys))
  termination_by xs ys => (xs.length, ys.length)

/-- Models `calculateTextSimilarity(text1, text2)`: 0 when either input is falsy
(the empty string), 1 when the normalized strings coincide, and otherwise
`1 - distance / maxLength` (the source's dead `maxLength === 0` guard is
kept verbatim). -/
def calculateTextSimilarity (text1 text2 : String) : ℚ :=
  if text1 = "" ∨ text2 = "" then 0
  else
    let normalized1 := normalizeText text1
    let normalized2 := normalizeText text2
    if normalized1 = normalized2 then 1
    else
      let maxLength := max normalized1.length normalized2.length
      if maxLength = 0 then 1
      else 1 - (levenshteinDistance normalized1 normalized2 : ℚ) / (maxLength : ℚ)

/-- Split a character list into maximal runs of non-whitespace characters.
This models `text.split(/\s+/)`; the only difference is that the JS split can
produce a leading empty-string chunk, which the subsequent `length > 2` filter
removes in any case. -/
def wordChunksAux : List Char → List Char → List (List Char)
  | [], acc => if acc = [] then [] else [acc.reverse]
  | c :: cs, acc =>
    if isSpaceChar c then
      if acc = [] then wordChunksAux cs [] else acc.reverse :: wordChunksAux cs []
    else wordChunksAux cs (c :: acc)

/-- All whitespace-separated chunks of a character list. -/
def wordChunks (cs : List Char) : List (List Char) :=
  wordChunksAux cs []

/-- Models `new Set(text.toLowerCase().split(/\s+/).filter(word => word.length > 2))`
from `calculateJaccardSimilarity`. -/
def jaccardWords (s : String) : Finset String :=
  (((wordChunks (s.data.map Char.toLower)).map List.asString).filter
    fun w => 2 < w.length).toFinset

/-- Models `calculateJaccardSimilarity(text1, text2)`: word-set similarity
`|intersection| / |union|`, 0 on falsy input or empty union. -/
def calculateJaccardSimilarity (text1 text2 : String) : ℚ :=
  if text1 = "" ∨ text2 = "" then 0
  else
    let words1 := jaccardWords text1
    let words2 := jaccardWords text2
    let inter := words1 ∩ words2
    let uni := words1 ∪ words2
    if uni.card = 0 then 0 else (inter.card : ℚ) / (uni.card : ℚ)

/-- Models `calculateCombinedSimilarity(text1, text2)`:
`levenshtein * 0.6 + jaccard * 0.4`. -/
def calculateCombinedSimilarity (text1 text2 : String) : ℚ :=
  calculateTextSimilarity text1 text2 * 0.6 + calculateJaccardSimilarity text1 text2 * 0.4

/-- Models `calculateDateProximity(date1, date2)`: timestamps are in milliseconds,
`diffDays = Math.ceil(|date1 - date2| / 86400000)`; same day scores 1, more
than `dateProximityDays = 7` days apart scores 0, otherwise `1 - days/7`. -/
def calculateDateProximity (date1 date2 : ℚ) : ℚ :=
  let diffTime := |date1 - date2|
  let diffDays : ℤ := ⌈diffTime / (1000 * 60 * 60 * 24)⌉
  if diffDays = 0 then 1
  else if 7 < diffDays then 0
  else 1 - (diffDays : ℚ) / 7

/-- GPS coordinates of a venue (`venue.coordinates`). -/
structure Coordinates where
  latitude : ℝ
  longitude : ℝ

/-- Street address of a venue (`venue.address`). -/
structure Address where
  street : String
  city : String

/-- The venue fields consulted by the detector.  `address` and `coordinates`
are optional in the event schema, hence `Option`. -/
structure Venue where
  name : String
  address : Option Address
  coordinates : Option Coordinates

/-- The `dateTime` sub-document; only `start` is consulted by the detector. -/
structure EventDateTime where
  start : ℚ

/-- The event fields consulted by the detector.  `organizer` is the
ObjectId rendered as a string (`organizer.toString()`). -/
structure Event where
  title : String
  description : String
  category : String
  venue : Venue
  dateTime : EventDateTime
  organizer : String

/-- Models `toRadians(degrees) = degrees * (Math.PI / 180)`. -/
noncomputable def toRadians (degrees : ℝ) : ℝ :=
  degrees * (Real.pi / 180)

/-- JS `Math.atan2(y, x)`, modelled as the argument of the complex number
`x + y*i`; both have range `(-π, π]` and send the origin to 0. -/
noncomputable def atan2 (y x : ℝ) : ℝ :=
  Complex.arg { re := x, im := y }

/-- Models `calculateDistance(lat1, lon1, lat2, lon2)`: the haversine great-circle
distance with Earth radius 6371 km. -/
noncomputable def calculateDistance (lat1 lon1 lat2 lon2 : ℝ) : ℝ :=
  let R : ℝ := 6371
  let dLat := toRadians (lat2 - lat1)
  let dLon := toRadians (lon2 - lon1)
  let a := Real.sin (dLat / 2) * Real.sin (dLat / 2) +
    Real.cos (toRadians lat1) * Real.cos (toRadians lat2) *
    Real.sin (dLon / 2) * Real.sin (dLon / 2)
  let c := 2 * atan2 (Real.sqrt a) (Real.sqrt (1 - a))
  R * c

/-- The geographic term of `calculateVenueProximity`: present only when both
venues carry coordinates and all four numbers are truthy (JS truthiness makes
a 0 latitude or longitude skip the branch); within `venueProximityKm = 5` km
the score is `1 - distance/5`, else 0. -/
noncomputable def geoProximityTerm (v1 v2 : Venue) : ℝ :=
  match v1.coordinates, v2.coordinates with
  | some c1, some c2 =>
    if c1.latitude ≠ 0 ∧ c1.longitude ≠ 0 ∧ c2.latitude ≠ 0 ∧ c2.longitude ≠ 0 then
      let distance := calculateDistance c1.latitude c1.longitude c2.latitude c2.longitude
      if distance ≤ 5 then 1 - distance / 5 else 0
    else 0
  | _, _ => 0

/-- The address term of `calculateVenueProximity`:
`combinedSimilarity("{street} {city}", "{street} {city}")` when both venues
carry an address, else 0. -/
def addressSimilarityTerm (v1 v2 : Venue) : ℚ :=
  match v1.address, v2.address with
  | some a1, some a2 =>
    calculateCombinedSimilarity (a1.street ++ " " ++ a1.city) (a2.street ++ " " ++ a2.city)
  | _, _ => 0

/-- Models `calculateVenueProximity(venue1, venue2)`:
`nameSimilarity * 0.5 + geoProximity * 0.3 + addressSimilarity * 0.2`. -/
noncomputable def calculateVenueProximity (v1 v2 : Venue) : ℝ :=
  (calculateCombinedSimilarity v1.name v2.name : ℝ) * 0.5 +
    geoProximityTerm v1 v2 * 0.3 + (addressSimilarityTerm v1 v2 : ℝ) * 0.2

/-- The `factors` record produced by `calculateDuplicateProbability`. -/
structure SimilarityFactors where
  titleSimilarity : ℚ
  descriptionSimilarity : ℚ
  dateProximity : ℚ
  venueProximity : ℝ
  categoryMatch : ℚ
  organizerMatch : ℚ

/-- The fixed `weights` object of `calculateDuplicateProbability`. -/
structure Weights where
  title : ℚ
  description : ℚ
  date : ℚ
  venue : ℚ
  category : ℚ
  organizer : ℚ

/-- Models `{ title: 0.35, description: 0.20, date: 0.15, venue: 0.15,
category: 0.10, organizer: 0.05 }`. -/
def weights : Weights :=
  { title := 0.35, description := 0.20, date := 0.15, venue := 0.15,
    category := 0.10, organizer := 0.05 }

/-- The `{ probability, factors }` object returned by
`calculateDuplicateProbability`. -/
structure ScoreResult where
  probability : ℝ
  factors : SimilarityFactors

/-- Models `calculateDuplicateProbability(event1, event2)`: the weighted combination
of the six per-field similarity factors. -/
noncomputable def calculateDuplicateProbability (event1 event2 : Event) : ScoreResult :=
  let titleSimilarity := calculateCombinedSimilarity event1.title event2.title
  let descriptionSimilarity := calculateCombinedSimilarity event1.description event2.description
  let dateProximity := calculateDateProximity event1.dateTime.start event2.dateTime.start
  let venueProximity := calculateVenueProximity event1.venue event2.venue
  let categoryMatch : ℚ := if event1.category = event2.category then 1 else 0
  let organizerMatch : ℚ := if event1.organizer = event2.organizer then 1 else 0
  let probability : ℝ :=
    (titleSimilarity : ℝ) * (weights.title : ℝ) +
    (descriptionSimilarity : ℝ) * (weights.description : ℝ) +
    (dateProximity : ℝ) * (weights.date : ℝ) +
    venueProximity * (weights.venue : ℝ) +
    (categoryMatch : ℝ) * (weights.category : ℝ) +
    (organizerMatch : ℝ) * (weights.organizer : ℝ)
  { probability := probability,
    factors :=
      { titleSimilarity := titleSimilarity,
        descriptionSimilarity := descriptionSimilarity,
        dateProximity := dateProximity,
        venueProximity := venueProximity,
        categoryMatch := categoryMatch,
        organizerMatch := organizerMatch } }

/-- Models `getConfidenceLevel(probability)`: the five fixed confidence tiers,
returned as the literal strings of the source. -/
noncomputable def getConfidenceLevel (probability : ℝ) : String :=
  if 0.9 ≤ probability then "VERY_HIGH"
  else if 0.8 ≤ probability then "HIGH"
  else if 0.6 ≤ probability then "MEDIUM"
  else if 0.4 ≤ probability then "LOW"
  else "VERY_LOW"

/-- The `explanations` array built by `generateExplanation(analysis)`: one
clause per factor whose trigger condition holds, in the fixed source order. -/
noncomputable def generateExplanationParts (analysis : ScoreResult) : List String :=
  let f := analysis.factors
  (if f.titleSimilarity > 0.8 then
      ["Event titles are " ++ toString (round (f.titleSimilarity * 100)) ++ "% similar"]
    else []) ++
  (if f.descriptionSimilarity > 0.7 then
      ["Event descriptions are " ++ toString (round (f.descriptionSimilarity * 100)) ++ "% similar"]
    else []) ++
  (if f.dateProximity > 0.8 then ["Events are scheduled very close in time"] else []) ++
  (if f.venueProximity > 0.8 then ["Events are at the same or very similar venue"] else []) ++
  (if f.categoryMatch = 1 then ["Events are in the same category"] else []) ++
  (if f.organizerMatch = 1 then ["Events have the same organizer"] else [])

/-- Models `generateExplanation(analysis)`: the clauses joined by `", "`, or the
fallback sentence when no trigger fires. -/
noncomputable def generateExplanation (analysis : ScoreResult) : String :=
  let explanations := generateExplanationParts analysis
  if explanations.length > 0 then String.intercalate ", " explanations
  else "General similarity detected"

/-- One entry of the `duplicates` / `suggestions` arrays built by
`checkForDuplicates`: the stored event together with its score, factors and
confidence tier. -/
structure Verdict where
  event : Event
  probability : ℝ
  factors : SimilarityFactors
  confidence : String

/-- The verdict object pushed by the scoring loop of `checkForDuplicates`
(the same record literal is built in both branches of the loop). -/
noncomputable def mkVerdict (newEvent existing : Event) : Verdict :=
  let analysis := calculateDuplicateProbability newEvent existing
  { event := existing,
    probability := analysis.probability,
    factors := analysis.factors,
    confidence := getConfidenceLevel analysis.probability }

/-- The comparator used to rank verdicts: `(a, b) => b.probability - a.probability`
sorts by descending probability, i.e. `a` precedes `b` when
`b.probability ≤ a.probability`. -/
def probGE (a b : Verdict) : Prop :=
  b.probability ≤ a.probability

noncomputable instance : DecidableRel probGE := fun a b =>
  inferInstanceAs (Decidable (b.probability ≤ a.probability))

instance : IsTotal Verdict probGE :=
  ⟨fun a b => le_total b.probability a.probability⟩

instance : IsTrans Verdict probGE :=
  ⟨fun _ _ _ hab hbc => le_trans hbc hab⟩

/-- Models `array.sort((a, b) => b.probability - a.probability)`: sort a verdict list
into descending probability order. -/
noncomputable def sortByProbability (l : List Verdict) : List Verdict :=
  l.insertionSort probGE

/-- The scoring loop of `checkForDuplicates`: each retrieved event is scored
against the candidate and pushed to the `duplicates` bucket when
`probability >= threshold`, else to the `suggestions` bucket when
`probability >= 0.5`, else dropped. -/
noncomputable def scoreLoop (newEvent : Event) (threshold : ℝ) :
    List Event → List Verdict × List Verdict
  | [] => ([], [])
  | existing :: rest =>
    let v := mkVerdict newEvent existing
    let acc := scoreLoop newEvent threshold rest
    if threshold ≤ v.probability then (v :: acc.1, acc.2)
    else if (0.5 : ℝ) ≤ v.probability then (acc.1, v :: acc.2)
    else acc

/-- The `analysis` sub-object of the result of `checkForDuplicates`. -/
structure Analysis where
  totalChecked : ℕ
  threshold : ℝ
  highConfidenceDuplicates : ℕ
  mediumConfidenceDuplicates : ℕ

/-- The result object of `checkForDuplicates`. -/
structure AnalysisResult where
  isDuplicate : Bool
  duplicates : List Verdict
  suggestions : List Verdict
  analysis : Analysis

/-- Result construction of `checkForDuplicates` after the scoring loop: sort
both buckets by descending probability, report `isDuplicate` from the full
duplicates bucket, truncate to the top 5 duplicates and top 3 suggestions,
and count the HIGH- and MEDIUM-confidence duplicates. -/
noncomputable def buildAnalysisResult (totalChecked : ℕ) (threshold : ℝ)
    (buckets : List Verdict × List Verdict) : AnalysisResult :=
  let duplicates := sortByProbability buckets.1
  let suggestions := sortByProbability buckets.2
  { isDuplicate := decide (0 < duplicates.length),
    duplicates := duplicates.take 5,
    suggestions := suggestions.take 3,
    analysis :=
      { totalChecked := totalChecked,
        threshold := threshold,
        highConfidenceDuplicates := (duplicates.filter fun d => d.confidence = "HIGH").length,
        mediumConfidenceDuplicates :=
          (duplicates.filter fun d => d.confidence = "MEDIUM").length } }

/-- Models `checkForDuplicates(newEvent, options)` after the store query: the
retrieved pool (already filtered by status, category, ±7-day window and
capped to `limit` by the external store, which is out of scope) is scored,
partitioned, ranked and truncated. -/
noncomputable def checkForDuplicates (newEvent : Event) (pool : List Event)
    (threshold : ℝ) : AnalysisResult :=
  buildAnalysisResult pool.length threshold (scoreLoop newEvent threshold pool)

/-- A stored record as consumed by the scoring loop: `none` models a
malformed record on which `calculateDuplicateProbability` throws (for
example a record with a missing `organizer`, whose `.toString()` raises a
TypeError); `some e` is a well-formed record. -/
def StoredRecord : Type := Option Event

/-- Scoring one retrieved record: throws on a malformed record. -/
noncomputable def scoreRecordE (newEvent : Event) : StoredRecord → Except Unit Verdict
  | some existing => Except.ok (mkVerdict newEvent existing)
  | none => Except.error ()

/-- The scoring loop of `checkForDuplicates` with its exception semantics:
the loop body has no try/catch, so the first throw aborts the whole loop. -/
noncomputable def scoreLoopE (newEvent : Event) (threshold : ℝ) :
    List StoredRecord → Except Unit (List Verdict × List Verdict)
  | [] => Except.ok ([], [])
  | record :: rest => do
    let v ← scoreRecordE newEvent record
    let acc ← scoreLoopE newEvent threshold rest
    if threshold ≤ v.probability then pure (v :: acc.1, acc.2)
    else if (0.5 : ℝ) ≤ v.probability then pure (acc.1, v :: acc.2)
    else pure acc

/-- Models `checkForDuplicates` with its exception semantics: the whole body sits in
one `try/catch`, whose handler rethrows the single error
`'Failed to check for duplicate events'`; there is no partial result. -/
noncomputable def checkForDuplicatesE (newEvent : Event) (pool : List StoredRecord)
    (threshold : ℝ) : Except String AnalysisResult :=
  match scoreLoopE newEvent threshold pool with
  | Except.error _ => Except.error "Failed to check for duplicate events"
  | Except.ok buckets => Except.ok (buildAnalysisResult pool.length threshold buckets)

/-- Outcome of the event-creation route `POST /api/events` as far as the
duplicate gate is concerned. -/
inductive CreateOutcome where
  | created
  | blockedDuplicate
  | serverError
deriving DecidableEq

/-- The duplicate-check gate of the event-creation route: unless
`skipDuplicateCheck` is set, `checkForDuplicates` is awaited (threshold 0.8)
with no inner try/catch, so a detector error propagates to the route's
catch handler, which answers HTTP 500 (`serverError`); a successful analysis
blocks with HTTP 409 when a VERY_HIGH-confidence duplicate is present and
otherwise lets creation proceed. -/
def createEventGate (skipDuplicateCheck : Bool)
    (detectorOutcome : Except String AnalysisResult) : CreateOutcome :=
  if skipDuplicateCheck then CreateOutcome.created
  else
    match detectorOutcome with
    | Except.error _ => CreateOutcome.serverError
    | Except.ok analysis =>
      if 0 < (analysis.duplicates.filter fun d => d.confidence = "VERY_HIGH").length then
        CreateOutcome.blockedDuplicate
      else CreateOutcome.created

/-! ## Concrete events: the end-to-end scenario of the specification -/

/-- The venue `{name: "Tech Auditorium"}` of the end-to-end scenario (no
address, no coordinates). -/
def techVenue : Venue :=
  { name := "Tech Auditorium", address := none, coordinates := none }

/-- The candidate event of the end-to-end scenario. -/
def aiCandidate : Event :=
  { title := "AI Workshop 2024",
    description := "Learn about AI and ML for 2 hours",
    category := "technology",
    venue := techVenue,
    dateTime := { start := 1735538400000 },
    organizer := "64f1b2a3c4d5e6f708192a3b" }

/-- The stored event of the end-to-end scenario: identical to the candidate
except that the title ends in `!`. -/
def aiStored : Event :=
  { title := "AI Workshop 2024!",
    description := "Learn about AI and ML for 2 hours",
    category := "technology",
    venue := techVenue,
    dateTime := { start := 1735538400000 },
    organizer := "64f1b2a3c4d5e6f708192a3b" }

/-! ## Basic bounds on the similarity scorers -/

theorem levenshteinDistance_le_max :
    ∀ xs ys : List Char, levenshteinDistance xs ys ≤ max xs.length ys.length := by
  intro xs
  induction xs with
  | nil => intro ys; simp [levenshteinDistance]
  | cons x xs ih =>
    intro ys
    cases ys with
    | nil => simp [levenshteinDistance]
    | cons y ys =>
      simp only [levenshteinDistance]
      by_cases h : x = y
      · rw [if_pos h]
        have h1 := ih ys
        simp only [List.length_cons]
        omega
      · rw [if_neg h]
        have h1 := ih ys
        have h2 := Nat.min_le_left (levenshteinDistance xs ys)
          (min (levenshteinDistance xs (y :: ys)) (levenshteinDistance (x :: xs) ys))
        simp only [List.length_cons]
        omega

theorem calculateTextSimilarity_nonneg (a b : String) :
    0 ≤ calculateTextSimilarity a b := by
  simp only [calculateTextSimilarity]
  split
  · norm_num
  · split
    · norm_num
    · split
      · norm_num
      · rename_i hmax
        have hd := levenshteinDistance_le_max (normalizeText a) (normalizeText b)
        have hm : 0 < max (normalizeText a).length (normalizeText b).length :=
          Nat.pos_of_ne_zero hmax
        have hdq : (levenshteinDistance (normalizeText a) (normalizeText b) : ℚ) ≤
            ((max (normalizeText a).length (normalizeText b).length : ℕ) : ℚ) :=
          Nat.cast_le.mpr hd
        have hmq : (0 : ℚ) < ((max (normalizeText a).length (normalizeText b).length : ℕ) : ℚ) :=
          Nat.cast_pos.mpr hm
        rw [sub_nonneg, div_le_one hmq]
        exact hdq

theorem calculateTextSimilarity_le_one (a b : String) :
    calculateTextSimilarity a b ≤ 1 := by
  simp only [calculateTextSimilarity]
  split
  · norm_num
  · split
    · norm_num
    · split
      · norm_num
      · rename_i hmax
        have hm : 0 < max (normalizeText a).length (normalizeText b).length :=
          Nat.pos_of_ne_zero hmax
        have hmq : (0 : ℚ) < ((max (normalizeText a).length (normalizeText b).length : ℕ) : ℚ) :=
          Nat.cast_pos.mpr hm
        have hdiv : 0 ≤ (levenshteinDistance (normalizeText a) (normalizeText b) : ℚ) /
            ((max (normalizeText a).length (normalizeText b).length : ℕ) : ℚ) := by positivity
        linarith

theorem calculateTextSimilarity_self (a : String) (h : a ≠ "") :
    calculateTextSimilarity a a = 1 := by
  simp only [calculateTextSimilarity]
  rw [if_neg (by simp [h])]
  simp

theorem calculateJaccardSimilarity_nonneg (a b : String) :
    0 ≤ calculateJaccardSimilarity a b := by
  simp only [calculateJaccardSimilarity]
  split
  · norm_num
  · split
    · norm_num
    · positivity

theorem calculateJaccardSimilarity_le_one (a b : String) :
    calculateJaccardSimilarity a b ≤ 1 := by
  simp only [calculateJaccardSimilarity]
  split
  · norm_num
  · split
    · norm_num
    · rename_i hcard
      have hsub : jaccardWords a ∩ jaccardWords b ⊆ jaccardWords a ∪ jaccardWords b :=
        (Finset.inter_subset_left).trans Finset.subset_union_left
      have hle := Finset.card_le_card hsub
      have hpos : 0 < (jaccardWords a ∪ jaccardWords b).card := Nat.pos_of_ne_zero hcard
      have hleq : ((jaccardWords a ∩ jaccardWords b).card : ℚ) ≤
          ((jaccardWords a ∪ jaccardWords b).card : ℚ) := by exact_mod_cast hle
      have hposq : (0 : ℚ) < ((jaccardWords a ∪ jaccardWords b).card : ℚ) := by
        exact_mod_cast hpos
      rw [div_le_one hposq]
      exact hleq

theorem calculateJaccardSimilarity_self (a : String) (h : a ≠ "")
    (hw : jaccardWords a ≠ ∅) : calculateJaccardSimilarity a a = 1 := by
  simp only [calculateJaccardSimilarity]
  rw [if_neg (by simp [h])]
  rw [Finset.union_self, Finset.inter_self]
  rw [if_neg (by simpa [Finset.card_eq_zero] using hw)]
  have : ((jaccardWords a).card : ℚ) ≠ 0 := by
    exact_mod_cast Finset.card_ne_zero.mpr (Finset.nonempty_iff_ne_empty.mpr hw)
  exact div_self this

theorem calculateCombinedSimilarity_nonneg (a b : String) :
    0 ≤ calculateCombinedSimilarity a b := by
  have h1 := calculateTextSimilarity_nonneg a b
  have h2 := calculateJaccardSimilarity_nonneg a b
  simp only [calculateCombinedSimilarity]
  nlinarith

theorem calculateCombinedSimilarity_le_one (a b : String) :
    calculateCombinedSimilarity a b ≤ 1 := by
  have h1 := calculateTextSimilarity_le_one a b
  have h2 := calculateJaccardSimilarity_le_one a b
  simp only [calculateCombinedSimilarity]
  nlinarith

theorem calculateCombinedSimilarity_self (a : String) (h : a ≠ "")
    (hw : jaccardWords a ≠ ∅) : calculateCombinedSimilarity a a = 1 := by
  simp only [calculateCombinedSimilarity, calculateTextSimilarity_self a h,
    calculateJaccardSimilarity_self a h hw]
  norm_num

theorem calculateDateProximity_nonneg (t1 t2 : ℚ) :
    0 ≤ calculateDateProximity t1 t2 := by
  simp only [calculateDateProximity]
  split
  · norm_num
  · split
    · norm_num
    · rename_i h0 h7
      have hle : ⌈|t1 - t2| / (1000 * 60 * 60 * 24)⌉ ≤ 7 := by omega
      have : ((⌈|t1 - t2| / (1000 * 60 * 60 * 24)⌉ : ℤ) : ℚ) ≤ 7 := by exact_mod_cast hle
      rw [sub_nonneg, div_le_one (by norm_num)]
      exact this

theorem calculateDateProximity_le_one (t1 t2 : ℚ) :
    calculateDateProximity t1 t2 ≤ 1 := by
  simp only [calculateDateProximity]
  split
  · norm_num
  · split
    · norm_num
    · have hnn : (0 : ℤ) ≤ ⌈|t1 - t2| / (1000 * 60 * 60 * 24)⌉ :=
        Int.ceil_nonneg (by positivity)
      have : (0 : ℚ) ≤ ((⌈|t1 - t2| / (1000 * 60 * 60 * 24)⌉ : ℤ) : ℚ) := by
        exact_mod_cast hnn
      have hdiv : (0 : ℚ) ≤ ((⌈|t1 - t2| / (1000 * 60 * 60 * 24)⌉ : ℤ) : ℚ) / 7 := by
        positivity
      linarith

theorem calculateDateProximity_self (t : ℚ) : calculateDateProximity t t = 1 := by
  simp [calculateDateProximity]

theorem atan2_nonneg (y x : ℝ) (hy : 0 ≤ y) : 0 ≤ atan2 y x := by
  rw [atan2, Complex.arg_nonneg_iff]
  exact hy

theorem calculateDistance_nonneg (lat1 lon1 lat2 lon2 : ℝ) :
    0 ≤ calculateDistance lat1 lon1 lat2 lon2 := by
  simp only [calculateDistance]
  apply mul_nonneg (by norm_num)
  apply mul_nonneg (by norm_num)
  exact atan2_nonneg _ _ (Real.sqrt_nonneg _)

theorem geoIfBounds (d : ℝ) (hd : 0 ≤ d) :
    0 ≤ (if d ≤ 5 then 1 - d / 5 else (0 : ℝ)) ∧
      (if d ≤ 5 then 1 - d / 5 else (0 : ℝ)) ≤ 1 := by
  constructor
  · split
    · rename_i hle
      rw [sub_nonneg, div_le_one (by norm_num)]
      exact hle
    · norm_num
  · split
    · have : 0 ≤ d / 5 := by positivity
      linarith
    · norm_num

theorem geoProximityTerm_nonneg (v1 v2 : Venue) : 0 ≤ geoProximityTerm v1 v2 := by
  simp only [geoProximityTerm]
  split
  · split
    · exact (geoIfBounds _ (calculateDistance_nonneg _ _ _ _)).1
    · norm_num
  · norm_num

theorem geoProximityTerm_le_one (v1 v2 : Venue) : geoProximityTerm v1 v2 ≤ 1 := by
  simp only [geoProximityTerm]
  split
  · split
    · exact (geoIfBounds _ (calculateDistance_nonneg _ _ _ _)).2
    · norm_num
  · norm_num

theorem addressSimilarityTerm_nonneg (v1 v2 : Venue) : 0 ≤ addressSimilarityTerm v1 v2 := by
  simp only [addressSimilarityTerm]
  split
  · exact calculateCombinedSimilarity_nonneg _ _
  · norm_num

theorem addressSimilarityTerm_le_one (v1 v2 : Venue) : addressSimilarityTerm v1 v2 ≤ 1 := by
  simp only [addressSimilarityTerm]
  split
  · exact calculateCombinedSimilarity_le_one _ _
  · norm_num

theorem calculateVenueProximity_nonneg (v1 v2 : Venue) :
    0 ≤ calculateVenueProximity v1 v2 := by
  have h1 : (0 : ℝ) ≤ (calculateCombinedSimilarity v1.name v2.name : ℝ) := by
    exact_mod_cast calculateCombinedSimilarity_nonneg v1.name v2.name
  have h2 := geoProximityTerm_nonneg v1 v2
  have h3 : (0 : ℝ) ≤ (addressSimilarityTerm v1 v2 : ℝ) := by
    exact_mod_cast addressSimilarityTerm_nonneg v1 v2
  simp only [calculateVenueProximity]
  nlinarith

theorem calculateVenueProximity_le_one (v1 v2 : Venue) :
    calculateVenueProximity v1 v2 ≤ 1 := by
  have h1 : (calculateCombinedSimilarity v1.name v2.name : ℝ) ≤ 1 := by
    exact_mod_cast calculateCombinedSimilarity_le_one v1.name v2.name
  have h2 := geoProximityTerm_le_one v1 v2
  have h3 : (addressSimilarityTerm v1 v2 : ℝ) ≤ 1 := by
    exact_mod_cast addressSimilarityTerm_le_one v1 v2
  simp only [calculateVenueProximity]
  nlinarith

/-! ## Bounds on the combined probability -/

theorem factors_spec (event1 event2 : Event) :
    (calculateDuplicateProbability event1 event2).factors =
      { titleSimilarity := calculateCombinedSimilarity event1.title event2.title,
        descriptionSimilarity :=
          calculateCombinedSimilarity event1.description event2.description,
        dateProximity := calculateDateProximity event1.dateTime.start event2.dateTime.start,
        venueProximity := calculateVenueProximity event1.venue event2.venue,
        categoryMatch := if event1.category = event2.category then 1 else 0,
        organizerMatch := if event1.organizer = event2.organizer then 1 else 0 } := rfl

theorem probability_spec (event1 event2 : Event) :
    (calculateDuplicateProbability event1 event2).probability =
      (calculateCombinedSimilarity event1.title event2.title : ℝ) * 0.35 +
      (calculateCombinedSimilarity event1.description event2.description : ℝ) * 0.20 +
      (calculateDateProximity event1.dateTime.start event2.dateTime.start : ℝ) * 0.15 +
      calculateVenueProximity event1.venue event2.venue * 0.15 +
      ((if event1.category = event2.category then (1 : ℚ) else 0) : ℝ) * 0.10 +
      ((if event1.organizer = event2.organizer then (1 : ℚ) else 0) : ℝ) * 0.05 := by
  simp only [calculateDuplicateProbability, weights]
  push_cast
  split_ifs <;> norm_num

theorem probability_bounds (event1 event2 : Event) :
    0 ≤ (calculateDuplicateProbability event1 event2).probability ∧
      (calculateDuplicateProbability event1 event2).probability ≤ 1 := by
  rw [probability_spec]
  have t0 : (0 : ℝ) ≤ (calculateCombinedSimilarity event1.title event2.title : ℝ) := by
    exact_mod_cast calculateCombinedSimilarity_nonneg _ _
  have t1 : (calculateCombinedSimilarity event1.title event2.title : ℝ) ≤ 1 := by
    exact_mod_cast calculateCombinedSimilarity_le_one _ _
  have d0 : (0 : ℝ) ≤ (calculateCombinedSimilarity event1.description event2.description : ℝ) := by
    exact_mod_cast calculateCombinedSimilarity_nonneg _ _
  have d1 : (calculateCombinedSimilarity event1.description event2.description : ℝ) ≤ 1 := by
    exact_mod_cast calculateCombinedSimilarity_le_one _ _
  have p0 : (0 : ℝ) ≤
      (calculateDateProximity event1.dateTime.start event2.dateTime.start : ℝ) := by
    exact_mod_cast calculateDateProximity_nonneg _ _
  have p1 : (calculateDateProximity event1.dateTime.start event2.dateTime.start : ℝ) ≤ 1 := by
    exact_mod_cast calculateDateProximity_le_one _ _
  have v0 := calculateVenueProximity_nonneg event1.venue event2.venue
  have v1 := calculateVenueProximity_le_one event1.venue event2.venue
  have c01 : ((if event1.category = event2.category then (1 : ℚ) else 0) : ℝ) = 0 ∨
      ((if event1.category = event2.category then (1 : ℚ) else 0) : ℝ) = 1 := by
    split <;> norm_num
  have o01 : ((if event1.organizer = event2.organizer then (1 : ℚ) else 0) : ℝ) = 0 ∨
      ((if event1.organizer = event2.organizer then (1 : ℚ) else 0) : ℝ) = 1 := by
    split <;> norm_num
  rcases c01 with hc | hc <;> rcases o01 with ho | ho <;> rw [hc, ho] <;> constructor <;>
    nlinarith

/-! ## The scoring loop: partition, ranking, truncation -/

theorem mem_scoreLoop_fst (newEvent : Event) (threshold : ℝ) (pool : List Event)
    (v : Verdict) :
    v ∈ (scoreLoop newEvent threshold pool).1 ↔
      v ∈ pool.map (mkVerdict newEvent) ∧ threshold ≤ v.probability := by
  induction pool with
  | nil => simp [scoreLoop]
  | cons e rest ih =>
    simp only [scoreLoop, List.map_cons]
    by_cases h1 : threshold ≤ (mkVerdict newEvent e).probability
    · rw [if_pos h1]
      simp only [List.mem_cons]
      constructor
      · rintro (rfl | hv)
        · exact ⟨Or.inl rfl, h1⟩
        · exact ⟨Or.inr (ih.mp hv).1, (ih.mp hv).2⟩
      · rintro ⟨(rfl | hm), hp⟩
        · exact Or.inl rfl
        · exact Or.inr (ih.mpr ⟨hm, hp⟩)
    · rw [if_neg h1]
      have key : v ∈ (if (0.5 : ℝ) ≤ (mkVerdict newEvent e).probability then
            ((scoreLoop newEvent threshold rest).1, mkVerdict newEvent e ::
              (scoreLoop newEvent threshold rest).2)
          else scoreLoop newEvent threshold rest).1 ↔
          v ∈ (scoreLoop newEvent threshold rest).1 := by
        split <;> rfl
      rw [key, ih]
      simp only [List.mem_cons]
      constructor
      · rintro ⟨hm, hp⟩
        exact ⟨Or.inr hm, hp⟩
      · rintro ⟨(rfl | hm), hp⟩
        · exact absurd hp h1
        · exact ⟨hm, hp⟩

theorem mem_scoreLoop_snd (newEvent : Event) (threshold : ℝ) (pool : List Event)
    (v : Verdict) :
    v ∈ (scoreLoop newEvent threshold pool).2 ↔
      v ∈ pool.map (mkVerdict newEvent) ∧ (0.5 : ℝ) ≤ v.probability ∧
        v.probability < threshold := by
  induction pool with
  | nil => simp [scoreLoop]
  | cons e rest ih =>
    simp only [scoreLoop, List.map_cons]
    by_cases h1 : threshold ≤ (mkVerdict newEvent e).probability
    · rw [if_pos h1]
      rw [ih]
      simp only [List.mem_cons]
      constructor
      · rintro ⟨hm, hp⟩
        exact ⟨Or.inr hm, hp⟩
      · rintro ⟨(rfl | hm), hp, hlt⟩
        · exact absurd h1 (not_le.mpr hlt)
        · exact ⟨hm, hp, hlt⟩
    · rw [if_neg h1]
      by_cases h2 : (0.5 : ℝ) ≤ (mkVerdict newEvent e).probability
      · rw [if_pos h2]
        simp only [List.mem_cons]
        constructor
        · rintro (rfl | hv)
          · exact ⟨Or.inl rfl, h2, not_le.mp h1⟩
          · exact ⟨Or.inr (ih.mp hv).1, (ih.mp hv).2⟩
        · rintro ⟨(rfl | hm), hp, hlt⟩
          · exact Or.inl rfl
          · exact Or.inr (ih.mpr ⟨hm, hp, hlt⟩)
      · rw [if_neg h2]
        rw [ih]
        simp only [List.mem_cons]
        constructor
        · rintro ⟨hm, hp⟩
          exact ⟨Or.inr hm, hp⟩
        · rintro ⟨(rfl | hm), hp, hlt⟩
          · exact absurd hp h2
          · exact ⟨hm, hp, hlt⟩

theorem sortByProbability_perm (l : List Verdict) : List.Perm (sortByProbability l) l :=
  List.perm_insertionSort probGE l

theorem sortByProbability_sorted (l : List Verdict) :
    List.Sorted probGE (sortByProbability l) :=
  List.sorted_insertionSort probGE l

theorem mem_sortByProbability (l : List Verdict) (v : Verdict) :
    v ∈ sortByProbability l ↔ v ∈ l :=
  (sortByProbability_perm l).mem_iff

/-! ## Exception semantics of the scoring loop -/

theorem scoreLoopE_error (newEvent : Event) (threshold : ℝ) (pool : List StoredRecord)
    (h : (none : Option Event) ∈ pool) :
    scoreLoopE newEvent threshold pool = Except.error () := by
  induction pool with
  | nil => simp at h
  | cons r rest ih =>
    rcases List.mem_cons.mp h with h1 | h2
    · subst h1
      rfl
    · cases r with
      | none => rfl
      | some e =>
        simp only [scoreLoopE, scoreRecordE, ih h2]
        rfl

theorem checkForDuplicatesE_error (newEvent : Event) (threshold : ℝ)
    (pool : List StoredRecord) (h : (none : Option Event) ∈ pool) :
    checkForDuplicatesE newEvent pool threshold =
      Except.error "Failed to check for duplicate events" := by
  rw [checkForDuplicatesE, scoreLoopE_error newEvent threshold pool h]

/-! ## Scoring a pair of events that agree on all compared text fields -/

theorem combined_eq_of_eq (a b : String) (hab : a = b) (h : a ≠ "")
    (hw : jaccardWords a ≠ ∅) : calculateCombinedSimilarity a b = 1 := by
  subst hab
  exact calculateCombinedSimilarity_self a h hw

theorem probability_identical_no_geo (e1 e2 : Event)
    (ht : e1.title = e2.title) (ht0 : e1.title ≠ "") (htw : jaccardWords e1.title ≠ ∅)
    (hd : e1.description = e2.description) (hd0 : e1.description ≠ "")
    (hdw : jaccardWords e1.description ≠ ∅)
    (hv : e1.venue.name = e2.venue.name) (hv0 : e1.venue.name ≠ "")
    (hvw : jaccardWords e1.venue.name ≠ ∅)
    (hdt : e1.dateTime.start = e2.dateTime.start)
    (hc : e1.category = e2.category) (ho : e1.organizer = e2.organizer)
    (hco : e1.venue.coordinates = none) (had : e1.venue.address = none) :
    (calculateDuplicateProbability e1 e2).probability = 0.925 := by
  rw [probability_spec]
  rw [combined_eq_of_eq _ _ ht ht0 htw, combined_eq_of_eq _ _ hd hd0 hdw]
  rw [hdt, calculateDateProximity_self]
  have hgeo : geoProximityTerm e1.venue e2.venue = 0 := by
    simp [geoProximityTerm, hco]
  have haddr : addressSimilarityTerm e1.venue e2.venue = 0 := by
    simp [addressSimilarityTerm, had]
  rw [calculateVenueProximity, combined_eq_of_eq _ _ hv hv0 hvw, hgeo, haddr]
  rw [if_pos hc, if_pos ho]
  norm_num

theorem textSimilarity_ai_bang :
    calculateTextSimilarity "AI Workshop 2024" "AI Workshop 2024!" = 1 := by
  simp only [calculateTextSimilarity]
  rw [if_neg (by decide), if_pos (by decide)]

theorem jaccardSimilarity_ai_bang :
    calculateJaccardSimilarity "AI Workshop 2024" "AI Workshop 2024!" = 1 / 3 := by
  simp only [calculateJaccardSimilarity]
  rw [if_neg (by decide), if_neg (by decide)]
  rw [show (jaccardWords "AI Workshop 2024" ∩ jaccardWords "AI Workshop 2024!").card = 1
    from by decide]
  rw [show (jaccardWords "AI Workshop 2024" ∪ jaccardWords "AI Workshop 2024!").card = 3
    from by decide]
  norm_num

theorem combinedSimilarity_ai_bang :
    calculateCombinedSimilarity "AI Workshop 2024" "AI Workshop 2024!" = 11 / 15 := by
  rw [calculateCombinedSimilarity, textSimilarity_ai_bang, jaccardSimilarity_ai_bang]
  norm_num

theorem venueProximity_tech_self :
    calculateVenueProximity techVenue techVenue = 0.5 := by
  rw [calculateVenueProximity]
  rw [combined_eq_of_eq _ _ rfl (by decide) (by decide)]
  rw [show geoProximityTerm techVenue techVenue = 0 from by simp [geoProximityTerm, techVenue]]
  rw [show addressSimilarityTerm techVenue techVenue = 0 from by
    simp [addressSimilarityTerm, techVenue]]
  norm_num

theorem probability_ai_scenario :
    (calculateDuplicateProbability aiCandidate aiStored).probability = 499 / 600 := by
  rw [probability_spec]
  have h1 : calculateCombinedSimilarity aiCandidate.title aiStored.title = 11 / 15 :=
    combinedSimilarity_ai_bang
  have h2 : calculateCombinedSimilarity aiCandidate.description aiStored.description = 1 :=
    combined_eq_of_eq _ _ rfl (by decide) (by decide)
  have h3 : calculateDateProximity aiCandidate.dateTime.start aiStored.dateTime.start = 1 :=
    calculateDateProximity_self _
  have h4 : calculateVenueProximity aiCandidate.venue aiStored.venue = 0.5 :=
    venueProximity_tech_self
  rw [h1, h2, h3, h4, if_pos (show aiCandidate.category = aiStored.category from rfl),
    if_pos (show aiCandidate.organizer = aiStored.organizer from rfl)]
  push_cast
  norm_num

theorem confidence_ai_scenario :
    getConfidenceLevel (calculateDuplicateProbability aiCandidate aiStored).probability =
      "HIGH" := by
  rw [probability_ai_scenario, getConfidenceLevel]
  rw [if_neg (by norm_num), if_pos (by norm_num)]

theorem explanationParts_ai_scenario :
    generateExplanationParts (calculateDuplicateProbability aiCandidate aiStored) =
      ["Event descriptions are 100% similar", "Events are scheduled very close in time",
        "Events are in the same category", "Events have the same organizer"] := by
  have h1 : calculateCombinedSimilarity aiCandidate.title aiStored.title = 11 / 15 :=
    combinedSimilarity_ai_bang
  have h2 : calculateCombinedSimilarity aiCandidate.description aiStored.description = 1 :=
    combined_eq_of_eq _ _ rfl (by decide) (by decide)
  have h3 : calculateDateProximity aiCandidate.dateTime.start aiStored.dateTime.start = 1 :=
    calculateDateProximity_self _
  have h4 : calculateVenueProximity aiCandidate.venue aiStored.venue = 0.5 :=
    venueProximity_tech_self
  have hcat : (if aiCandidate.category = aiStored.category then (1 : ℚ) else 0) = 1 :=
    if_pos rfl
  have horg : (if aiCandidate.organizer = aiStored.organizer then (1 : ℚ) else 0) = 1 :=
    if_pos rfl
  simp only [generateExplanationParts, factors_spec]
  simp only [h1, h2, h3, h4, hcat, horg]
  rw [if_neg (show ¬((11 / 15 : ℚ) > 0.8) from by norm_num),
    if_pos (show (1 : ℚ) > 0.7 from by norm_num),
    if_pos (show (1 : ℚ) > 0.8 from by norm_num),
    if_neg (show ¬((0.5 : ℝ) > 0.8) from by norm_num)]
  simp only [if_true]
  rw [show round ((1 : ℚ) * 100) = 100 from by norm_num]
  rfl

/-! ## Claim theorems -/

/-- C3: for every candidate, retrieved pool and threshold, `checkForDuplicates`
places a scored event in the duplicates bucket iff its probability ≥ threshold
and in the suggestions bucket iff 0.5 ≤ probability < threshold (the 0.5
cutoff being fixed); the returned lists are the descending-probability sorts
of the buckets truncated to 5 resp. 3 entries, hence sorted with at most 5
resp. 3 elements, and `isDuplicate` is true iff the duplicates bucket is
non-empty. -/
theorem checkForDuplicates_partition_spec (newEvent : Event) (pool : List Event)
    (threshold : ℝ) :
    (∀ v, v ∈ (scoreLoop newEvent threshold pool).1 ↔
        v ∈ pool.map (mkVerdict newEvent) ∧ threshold ≤ v.probability) ∧
    (∀ v, v ∈ (scoreLoop newEvent threshold pool).2 ↔
        v ∈ pool.map (mkVerdict newEvent) ∧ (0.5 : ℝ) ≤ v.probability ∧
          v.probability < threshold) ∧
    (checkForDuplicates newEvent pool threshold).duplicates =
      (sortByProbability (scoreLoop newEvent threshold pool).1).take 5 ∧
    (checkForDuplicates newEvent pool threshold).suggestions =
      (sortByProbability (scoreLoop newEvent threshold pool).2).take 3 ∧
    List.Sorted probGE (checkForDuplicates newEvent pool threshold).duplicates ∧
    List.Sorted probGE (checkForDuplicates newEvent pool threshold).suggestions ∧
    (checkForDuplicates newEvent pool threshold).duplicates.length ≤ 5 ∧
    (checkForDuplicates newEvent pool threshold).suggestions.length ≤ 3 ∧
    ((checkForDuplicates newEvent pool threshold).isDuplicate = true ↔
      (scoreLoop newEvent threshold pool).1 ≠ []) := by
  refine ⟨mem_scoreLoop_fst newEvent threshold pool,
    mem_scoreLoop_snd newEvent threshold pool, rfl, rfl, ?_, ?_, ?_, ?_, ?_⟩
  · exact List.Pairwise.sublist (List.take_sublist _ _)
      (sortByProbability_sorted (scoreLoop newEvent threshold pool).1)
  · exact List.Pairwise.sublist (List.take_sublist _ _)
      (sortByProbability_sorted (scoreLoop newEvent threshold pool).2)
  · exact List.length_take_le _ _
  · exact List.length_take_le _ _
  · show decide (0 < (sortByProbability (scoreLoop newEvent threshold pool).1).length)
        = true ↔ _
    rw [decide_eq_true_iff]
    rw [(sortByProbability_perm (scoreLoop newEvent threshold pool).1).length_eq]
    exact List.length_pos

/-- Witness for C3 at a concrete input: with an empty pool the result has no
duplicates and `isDuplicate` is `false`. -/
theorem checkForDuplicates_partition_spec_witness :
    (checkForDuplicates aiCandidate [] (0.8 : ℝ)).duplicates = [] ∧
      (checkForDuplicates aiCandidate [] (0.8 : ℝ)).isDuplicate = false := by
  have h := checkForDuplicates_partition_spec aiCandidate [] (0.8 : ℝ)
  constructor
  · rw [h.2.2.1]
    rfl
  · have hiff := h.2.2.2.2.2.2.2.2
    have hnil : (scoreLoop aiCandidate (0.8 : ℝ) []).1 = [] := rfl
    rcases hb : (checkForDuplicates aiCandidate [] (0.8 : ℝ)).isDuplicate with _ | _
    · rfl
    · exact absurd (hiff.mp hb) (by simp [hnil])

/-- C10: the duplicates and suggestions lists of every produced
`AnalysisResult` are disjoint, and every call with threshold ≤ 0.5 produces
an empty suggestions list. -/
theorem checkForDuplicates_disjoint_spec (newEvent : Event) (pool : List Event)
    (threshold : ℝ) :
    List.Disjoint (checkForDuplicates newEvent pool threshold).duplicates
        (checkForDuplicates newEvent pool threshold).suggestions ∧
      (threshold ≤ 0.5 → (checkForDuplicates newEvent pool threshold).suggestions = []) := by
  constructor
  · intro v hd hs
    have hd' : v ∈ (scoreLoop newEvent threshold pool).1 := by
      have := List.take_subset 5 (sortByProbability (scoreLoop newEvent threshold pool).1) hd
      exact (mem_sortByProbability _ v).mp this
    have hs' : v ∈ (scoreLoop newEvent threshold pool).2 := by
      have := List.take_subset 3 (sortByProbability (scoreLoop newEvent threshold pool).2) hs
      exact (mem_sortByProbability _ v).mp this
    have h1 := ((mem_scoreLoop_fst newEvent threshold pool v).mp hd').2
    have h2 := ((mem_scoreLoop_snd newEvent threshold pool v).mp hs').2.2
    linarith
  · intro hth
    have hnil : (scoreLoop newEvent threshold pool).2 = [] := by
      rw [List.eq_nil_iff_forall_not_mem]
      intro v hv
      have h := (mem_scoreLoop_snd newEvent threshold pool v).mp hv
      linarith [h.2.1, h.2.2]
    show ((sortByProbability (scoreLoop newEvent threshold pool).2).take 3) = []
    rw [hnil]
    rfl

/-- Witness for C10 at a concrete input: with threshold exactly 0.5 the
suggestions list is empty. -/
theorem checkForDuplicates_disjoint_spec_witness :
    (checkForDuplicates aiCandidate [aiStored] (0.5 : ℝ)).suggestions = [] :=
  (checkForDuplicates_disjoint_spec aiCandidate [aiStored] (0.5 : ℝ)).2 (by norm_num)

/-- C1 counterexample: two events that agree on title, description, venue
name, start instant, category and organizer — but whose venues carry no
coordinates and no address — score probability 0.925, not 1.0, because the
geographic and address terms of the venue proximity are zeroed. -/
theorem scorePair_identical_not_one :
    (calculateDuplicateProbability aiCandidate aiCandidate).probability ≠ 1 := by
  rw [probability_identical_no_geo aiCandidate aiCandidate rfl (by decide) (by decide) rfl
    (by decide) (by decide) rfl (by decide) (by decide) rfl rfl rfl rfl rfl]
  norm_num

/-- C1 (amended): for every pair of events whose title, description and venue
name are equal, non-empty and contain at least one token longer than two
characters, with the same start instant, equal category and equal organizer,
and whose venues carry no coordinates and no address, `scorePair` returns
probability exactly 0.925 and `classify` returns VERY_HIGH. -/
theorem scorePair_identical_core_fields (e1 e2 : Event)
    (ht : e1.title = e2.title) (ht0 : e1.title ≠ "") (htw : jaccardWords e1.title ≠ ∅)
    (hd : e1.description = e2.description) (hd0 : e1.description ≠ "")
    (hdw : jaccardWords e1.description ≠ ∅)
    (hv : e1.venue.name = e2.venue.name) (hv0 : e1.venue.name ≠ "")
    (hvw : jaccardWords e1.venue.name ≠ ∅)
    (hdt : e1.dateTime.start = e2.dateTime.start)
    (hc : e1.category = e2.category) (ho : e1.organizer = e2.organizer)
    (hco : e1.venue.coordinates = none) (had : e1.venue.address = none) :
    (calculateDuplicateProbability e1 e2).probability = 0.925 ∧
      getConfidenceLevel (calculateDuplicateProbability e1 e2).probability =
        "VERY_HIGH" := by
  have hp := probability_identical_no_geo e1 e2 ht ht0 htw hd hd0 hdw hv hv0 hvw hdt hc ho
    hco had
  refine ⟨hp, ?_⟩
  rw [hp, getConfidenceLevel, if_pos (by norm_num)]

/-- Witness for C1 (amended) at a concrete pair of identical events. -/
theorem scorePair_identical_core_fields_witness :
    (calculateDuplicateProbability aiCandidate aiCandidate).probability = 0.925 ∧
      getConfidenceLevel (calculateDuplicateProbability aiCandidate aiCandidate).probability =
        "VERY_HIGH" :=
  scorePair_identical_core_fields aiCandidate aiCandidate rfl (by decide) (by decide) rfl
    (by decide) (by decide) rfl (by decide) (by decide) rfl rfl rfl rfl rfl

/-- C2 counterexample: on the spec's end-to-end scenario (identical events
except a trailing `!` in the stored title) the probability is 499/600 ≈ 0.83,
below the claimed 0.95, and the confidence is not VERY_HIGH. -/
theorem endToEnd_scenario_counterexample :
    (calculateDuplicateProbability aiCandidate aiStored).probability < 0.95 ∧
      getConfidenceLevel (calculateDuplicateProbability aiCandidate aiStored).probability ≠
        "VERY_HIGH" := by
  constructor
  · rw [probability_ai_scenario]
    norm_num
  · rw [confidence_ai_scenario]
    decide

/-- C2 (amended): the end-to-end scenario yields probability exactly 499/600
(≈ 0.83), confidence HIGH, and an explanation containing the category clause
but no title clause — the Jaccard component treats `2024` and `2024!` as
distinct tokens, so the title similarity is 11/15 ≤ 0.8 and its trigger
does not fire. -/
theorem endToEnd_scenario_actual :
    (calculateDuplicateProbability aiCandidate aiStored).probability = 499 / 600 ∧
      getConfidenceLevel (calculateDuplicateProbability aiCandidate aiStored).probability =
        "HIGH" ∧
      generateExplanationParts (calculateDuplicateProbability aiCandidate aiStored) =
        ["Event descriptions are 100% similar", "Events are scheduled very close in time",
          "Events are in the same category", "Events have the same organizer"] ∧
      "Events are in the same category" ∈
        generateExplanationParts (calculateDuplicateProbability aiCandidate aiStored) := by
  refine ⟨probability_ai_scenario, confidence_ai_scenario, explanationParts_ai_scenario, ?_⟩
  rw [explanationParts_ai_scenario]
  simp

/-- C4 counterexample: when the detector throws during the creation-time
gate (no skip flag), the create request is not treated as duplicate-free —
it does not reach the `created` outcome. -/
theorem createGate_error_not_created :
    createEventGate false (Except.error "Failed to check for duplicate events") ≠
      CreateOutcome.created := by
  decide

/-- C4 (amended): a detector error during the creation-time gate propagates
to the route's catch handler and the create request is rejected with an
HTTP 500 server error (fail-closed), rather than proceeding as if no
duplicates were found. -/
theorem createGate_error_server_error :
    createEventGate false (Except.error "Failed to check for duplicate events") =
      CreateOutcome.serverError := rfl

/-- C5 counterexample: a pool containing one well-formed record and one
malformed record makes `checkForDuplicates` abort with the single error
`'Failed to check for duplicate events'` instead of skipping the bad pair
and returning an `AnalysisResult`. -/
theorem checkForDuplicates_malformed_aborts :
    checkForDuplicatesE aiCandidate [some aiStored, none] (0.8 : ℝ) =
      Except.error "Failed to check for duplicate events" :=
  checkForDuplicatesE_error aiCandidate (0.8 : ℝ) [some aiStored, none] (by simp)

/-- C5 (amended): whenever any single pair's scoring fails, the whole batch
aborts — `checkForDuplicates` returns the error
`'Failed to check for duplicate events'` and no `AnalysisResult` at all;
the failing pair is not skipped. -/
theorem checkForDuplicates_single_failure_aborts (newEvent : Event)
    (pool : List StoredRecord) (threshold : ℝ) (h : (none : Option Event) ∈ pool) :
    checkForDuplicatesE newEvent pool threshold =
      Except.error "Failed to check for duplicate events" :=
  checkForDuplicatesE_error newEvent threshold pool h

/-- Witness for C5 (amended) at a concrete input. -/
theorem checkForDuplicates_single_failure_aborts_witness :
    checkForDuplicatesE aiCandidate [none] (0.7 : ℝ) =
      Except.error "Failed to check for duplicate events" :=
  checkForDuplicates_single_failure_aborts aiCandidate [none] (0.7 : ℝ) (by simp)

/-- C6 counterexample: `combinedTextSimilarity("", "") = 0`, not 1 — both
component scorers return 0 on falsy (empty) input. -/
theorem combinedTextSimilarity_empty_zero :
    calculateCombinedSimilarity "" "" = 0 ∧ (0 : ℚ) ≠ 1 := by
  constructor
  · have h1 : calculateTextSimilarity "" "" = 0 := by
      simp [calculateTextSimilarity]
    have h2 : calculateJaccardSimilarity "" "" = 0 := by
      simp [calculateJaccardSimilarity]
    rw [calculateCombinedSimilarity, h1, h2]
    norm_num
  · norm_num

/-- C6 (amended): `combinedTextSimilarity(s, s) = 1` for every non-empty
string `s` that contains at least one whitespace-delimited token longer than
two characters; for the empty string the result is 0. -/
theorem combinedTextSimilarity_self_eq_one (s : String) (h : s ≠ "")
    (hw : jaccardWords s ≠ ∅) : calculateCombinedSimilarity s s = 1 :=
  calculateCombinedSimilarity_self s h hw

/-- Witness for C6 (amended) at a concrete string. -/
theorem combinedTextSimilarity_self_eq_one_witness :
    calculateCombinedSimilarity "AI Workshop 2024" "AI Workshop 2024" = 1 :=
  combinedTextSimilarity_self_eq_one "AI Workshop 2024" (by decide) (by decide)

/-- C7: `classify` returns VERY_HIGH iff p ≥ 0.9, HIGH iff 0.8 ≤ p < 0.9,
MEDIUM iff 0.6 ≤ p < 0.8, LOW iff 0.4 ≤ p < 0.6 and VERY_LOW iff p < 0.4,
with the boundary evaluations of the specification. -/
theorem getConfidenceLevel_tiers :
    (∀ p : ℝ,
      (getConfidenceLevel p = "VERY_HIGH" ↔ 0.9 ≤ p) ∧
      (getConfidenceLevel p = "HIGH" ↔ 0.8 ≤ p ∧ p < 0.9) ∧
      (getConfidenceLevel p = "MEDIUM" ↔ 0.6 ≤ p ∧ p < 0.8) ∧
      (getConfidenceLevel p = "LOW" ↔ 0.4 ≤ p ∧ p < 0.6) ∧
      (getConfidenceLevel p = "VERY_LOW" ↔ p < 0.4)) ∧
    getConfidenceLevel (0.9 : ℝ) = "VERY_HIGH" ∧
    getConfidenceLevel (0.89999 : ℝ) = "HIGH" ∧
    getConfidenceLevel (0.8 : ℝ) = "HIGH" ∧
    getConfidenceLevel (0.6 : ℝ) = "MEDIUM" ∧
    getConfidenceLevel (0.4 : ℝ) = "LOW" ∧
    getConfidenceLevel (0.39999 : ℝ) = "VERY_LOW" := by
  constructor
  · intro p
    unfold getConfidenceLevel
    rcases le_or_lt (0.9 : ℝ) p with h9 | h9
    · rw [if_pos h9]
      exact ⟨iff_of_true rfl h9,
        iff_of_false (by decide) (fun h => by linarith [h.2]),
        iff_of_false (by decide) (fun h => by linarith [h.2]),
        iff_of_false (by decide) (fun h => by linarith [h.2]),
        iff_of_false (by decide) (fun h => by linarith)⟩
    · rw [if_neg (not_le.mpr h9)]
      rcases le_or_lt (0.8 : ℝ) p with h8 | h8
      · rw [if_pos h8]
        exact ⟨iff_of_false (by decide) (fun h => by linarith),
          iff_of_true rfl ⟨h8, h9⟩,
          iff_of_false (by decide) (fun h => by linarith [h.2]),
          iff_of_false (by decide) (fun h => by linarith [h.2]),
          iff_of_false (by decide) (fun h => by linarith)⟩
      · rw [if_neg (not_le.mpr h8)]
        rcases le_or_lt (0.6 : ℝ) p with h6 | h6
        · rw [if_pos h6]
          exact ⟨iff_of_false (by decide) (fun h => by linarith),
            iff_of_false (by decide) (fun h => by linarith [h.1]),
            iff_of_true rfl ⟨h6, h8⟩,
            iff_of_false (by decide) (fun h => by linarith [h.2]),
            iff_of_false (by decide) (fun h => by linarith)⟩
        · rw [if_neg (not_le.mpr h6)]
          rcases le_or_lt (0.4 : ℝ) p with h4 | h4
          · rw [if_pos h4]
            exact ⟨iff_of_false (by decide) (fun h => by linarith),
              iff_of_false (by decide) (fun h => by linarith [h.1]),
              iff_of_false (by decide) (fun h => by linarith [h.1]),
              iff_of_true rfl ⟨h4, h6⟩,
              iff_of_false (by decide) (fun h => by linarith)⟩
          · rw [if_neg (not_le.mpr h4)]
            exact ⟨iff_of_false (by decide) (fun h => by linarith),
              iff_of_false (by decide) (fun h => by linarith [h.1]),
              iff_of_false (by decide) (fun h => by linarith [h.1]),
              iff_of_false (by decide) (fun h => by linarith [h.1]),
              iff_of_true rfl h4⟩
  · refine ⟨?_, ?_, ?_, ?_, ?_, ?_⟩ <;> unfold getConfidenceLevel
    · rw [if_pos (by norm_num)]
    · rw [if_neg (by norm_num), if_pos (by norm_num)]
    · rw [if_neg (by norm_num), if_pos (by norm_num)]
    · rw [if_neg (by norm_num), if_neg (by norm_num), if_pos (by norm_num)]
    · rw [if_neg (by norm_num), if_neg (by norm_num), if_neg (by norm_num),
        if_pos (by norm_num)]
    · rw [if_neg (by norm_num), if_neg (by norm_num), if_neg (by norm_num),
        if_neg (by norm_num)]

/-- Witness for C7: a concrete classification obtained through the tier
characterization. -/
theorem getConfidenceLevel_tiers_witness : getConfidenceLevel (0.95 : ℝ) = "VERY_HIGH" :=
  ((getConfidenceLevel_tiers.1 (0.95 : ℝ)).1).mpr (by norm_num)

/-- C8: for every pair of events the probability returned by `scorePair` lies
in [0,1], each similarity factor lies in [0,1], the category and organizer
factors are exactly 0 or 1, and the six weights sum to 1. -/
theorem scorePair_unit_interval (e1 e2 : Event) :
    (0 ≤ (calculateDuplicateProbability e1 e2).probability ∧
      (calculateDuplicateProbability e1 e2).probability ≤ 1) ∧
    (0 ≤ (calculateDuplicateProbability e1 e2).factors.titleSimilarity ∧
      (calculateDuplicateProbability e1 e2).factors.titleSimilarity ≤ 1) ∧
    (0 ≤ (calculateDuplicateProbability e1 e2).factors.descriptionSimilarity ∧
      (calculateDuplicateProbability e1 e2).factors.descriptionSimilarity ≤ 1) ∧
    (0 ≤ (calculateDuplicateProbability e1 e2).factors.dateProximity ∧
      (calculateDuplicateProbability e1 e2).factors.dateProximity ≤ 1) ∧
    (0 ≤ (calculateDuplicateProbability e1 e2).factors.venueProximity ∧
      (calculateDuplicateProbability e1 e2).factors.venueProximity ≤ 1) ∧
    ((calculateDuplicateProbability e1 e2).factors.categoryMatch = 0 ∨
      (calculateDuplicateProbability e1 e2).factors.categoryMatch = 1) ∧
    ((calculateDuplicateProbability e1 e2).factors.organizerMatch = 0 ∨
      (calculateDuplicateProbability e1 e2).factors.organizerMatch = 1) ∧
    weights.title + weights.description + weights.date + weights.venue +
      weights.category + weights.organizer = 1 := by
  refine ⟨probability_bounds e1 e2, ?_, ?_, ?_, ?_, ?_, ?_, ?_⟩
  · simp only [factors_spec]
    exact ⟨calculateCombinedSimilarity_nonneg _ _, calculateCombinedSimilarity_le_one _ _⟩
  · simp only [factors_spec]
    exact ⟨calculateCombinedSimilarity_nonneg _ _, calculateCombinedSimilarity_le_one _ _⟩
  · simp only [factors_spec]
    exact ⟨calculateDateProximity_nonneg _ _, calculateDateProximity_le_one _ _⟩
  · simp only [factors_spec]
    exact ⟨calculateVenueProximity_nonneg _ _, calculateVenueProximity_le_one _ _⟩
  · simp only [factors_spec]
    by_cases h : e1.category = e2.category
    · right
      rw [if_pos h]
    · left
      rw [if_neg h]
  · simp only [factors_spec]
    by_cases h : e1.organizer = e2.organizer
    · right
      rw [if_pos h]
    · left
      rw [if_neg h]
  · norm_num [weights]

/-- Witness for C8 at a concrete pair of events. -/
theorem scorePair_unit_interval_witness :
    0 ≤ (calculateDuplicateProbability aiCandidate aiStored).probability ∧
      (calculateDuplicateProbability aiCandidate aiStored).probability ≤ 1 :=
  (scorePair_unit_interval aiCandidate aiStored).1

theorem dateProximity_eight_days (t : ℚ) :
    calculateDateProximity t (t + 8 * 86400000) = 0 := by
  simp only [calculateDateProximity]
  have habs : |t - (t + 8 * 86400000)| = 8 * 86400000 := by
    rw [abs_sub_comm, add_sub_cancel_left, abs_of_nonneg (by norm_num)]
  rw [habs]
  have hc : ⌈(8 * 86400000 : ℚ) / (1000 * 60 * 60 * 24)⌉ = (8 : ℤ) := by
    rw [Int.ceil_eq_iff]
    constructor <;> norm_num
  rw [hc, if_neg (by decide), if_pos (by decide)]

theorem dateProximity_three_half_days (t : ℚ) :
    calculateDateProximity t (t + 302400000) = 3 / 7 := by
  simp only [calculateDateProximity]
  have habs : |t - (t + 302400000)| = 302400000 := by
    rw [abs_sub_comm, add_sub_cancel_left, abs_of_nonneg (by norm_num)]
  rw [habs]
  have hc : ⌈(302400000 : ℚ) / (1000 * 60 * 60 * 24)⌉ = (4 : ℤ) := by
    rw [Int.ceil_eq_iff]
    constructor <;> norm_num
  rw [hc, if_neg (by decide), if_neg (by decide)]
  push_cast
  norm_num

/-- C9 counterexample: at 3.5 days apart the code returns 3/7 ≈ 0.43, which
is not ≈ 0.5 — the distance to 0.5 exceeds 1/15 — because the day count is
`ceil(3.5) = 4`. -/
theorem dateProximity_three_half_not_half :
    calculateDateProximity 0 302400000 = 3 / 7 ∧ (1 / 15 : ℚ) < |3 / 7 - 1 / 2| := by
  constructor
  · have h := dateProximity_three_half_days 0
    rw [zero_add] at h
    exact h
  · rw [show |(3 / 7 : ℚ) - 1 / 2| = 1 / 14 from by rw [abs_of_nonpos] <;> norm_num]
    norm_num

/-- C9 (amended): `dateProximity` returns 1 when `days = ceil(|t1-t2|/86400000)`
is 0, returns 0 when `days > 7`, and returns `1 - days/7` otherwise; in
particular `dateProximity(t,t) = 1`, `dateProximity(t, t + 8 days) = 0` and
`dateProximity(t, t + 3.5 days) = 3/7 ≈ 0.43` (not ≈ 0.5, since
`ceil(3.5) = 4`). -/
theorem dateProximity_spec :
    (∀ t1 t2 : ℚ,
      (⌈|t1 - t2| / 86400000⌉ = 0 → calculateDateProximity t1 t2 = 1) ∧
      (7 < ⌈|t1 - t2| / 86400000⌉ → calculateDateProximity t1 t2 = 0) ∧
      (⌈|t1 - t2| / 86400000⌉ ≠ 0 → ⌈|t1 - t2| / 86400000⌉ ≤ 7 →
        calculateDateProximity t1 t2 = 1 - (⌈|t1 - t2| / 86400000⌉ : ℚ) / 7)) ∧
    (∀ t : ℚ, calculateDateProximity t t = 1) ∧
    (∀ t : ℚ, calculateDateProximity t (t + 8 * 86400000) = 0) ∧
    (∀ t : ℚ, calculateDateProximity t (t + 302400000) = 3 / 7) := by
  have hden : (1000 * 60 * 60 * 24 : ℚ) = 86400000 := by norm_num
  refine ⟨?_, calculateDateProximity_self, dateProximity_eight_days,
    dateProximity_three_half_days⟩
  intro t1 t2
  simp only [calculateDateProximity, hden]
  refine ⟨fun h0 => ?_, fun h7 => ?_, fun h0 h7 => ?_⟩
  · rw [if_pos h0]
  · rw [if_neg (by omega), if_pos h7]
  · rw [if_neg h0, if_neg (not_lt.mpr h7)]

/-- Witness for C9 at concrete instants: same instant gives 1, and one day
apart gives 6/7 through the general formula. -/
theorem dateProximity_spec_witness :
    calculateDateProximity 5 5 = 1 ∧ calculateDateProximity 0 86400000 = 6 / 7 := by
  constructor
  · exact dateProximity_spec.2.1 5
  · have hc : ⌈|(0 : ℚ) - 86400000| / 86400000⌉ = (1 : ℤ) := by
      rw [show |(0 : ℚ) - 86400000| = 86400000 from by norm_num]
      rw [Int.ceil_eq_iff]
      constructor <;> norm_num
    have h := (dateProximity_spec.1 0 86400000).2.2 (by rw [hc]; decide)
      (by rw [hc]; decide)
    rw [hc] at h
    rw [h]
    push_cast
    norm_num
